import Mathlib

/-!
Verification development for `fenrir_api.py` (flask-fenrir): a shallow
embedding of the statement classifier, the guarded read/write executors,
the schema introspection handlers and the two authentication gates,
together with proofs of the specified properties.
-/

namespace Fenrir

/-- Python whitespace test (`\s` of the `re` module and `str.strip`),
restricted to the ASCII whitespace characters. -/
def pyIsSpace (c : Char) : Bool :=
  c == ' ' || c == '\t' || c == '\n' || c == '\r' || c == '\x0b' || c == '\x0c'

/-- Python `str.strip()` on the underlying character list: drop leading and
trailing whitespace. -/
def pyStripList (l : List Char) : List Char :=
  ((l.dropWhile pyIsSpace).reverse.dropWhile pyIsSpace).reverse

/-- Python `str.strip()`. -/
def pyStrip (s : String) : String :=
  ⟨pyStripList s.data⟩

/-- ASCII lower-casing of one character, as `re.IGNORECASE` compares letters. -/
def lowerAscii (c : Char) : Char :=
  if 'A' ≤ c ∧ c ≤ 'Z' then Char.ofNat (c.toNat + 32) else c

/-- Case-insensitive "begins with" on character lists. -/
def ciStarts (l p : List Char) : Bool :=
  (l.take p.length).map lowerAscii == p.map lowerAscii

/-- The alternation `(SELECT|WITH\s)` of `_READ_ONLY_RE`, applied at the
start of a character list: the list begins case-insensitively with `SELECT`,
or with `WITH` followed by one whitespace character. -/
def checkRO (l : List Char) : Bool :=
  ciStarts l "SELECT".data ||
    (ciStarts l "WITH".data &&
      (match l.drop 4 with
       | c :: _ => pyIsSpace c
       | [] => false))

/-- `_READ_ONLY_RE.match(s)` as a Boolean: the regex `^\s*(SELECT|WITH\s)`
with `re.IGNORECASE` matches `s` at the start.  The greedy `\s*` is
equivalent to dropping the maximal run of leading whitespace, because both
alternatives begin with a non-whitespace letter. -/
def readOnlyMatch (s : String) : Bool :=
  checkRO (s.data.dropWhile pyIsSpace)

/-- The classification tag of a statement. -/
inductive Classification where
  | READ_ONLY
  | MUTATING
deriving DecidableEq

/-- The statement classifier: `READ_ONLY` exactly when `_READ_ONLY_RE`
matches, every other statement is `MUTATING`. -/
def classify (s : String) : Classification :=
  if readOnlyMatch s then .READ_ONLY else .MUTATING

/-- Spec-side reading of the classification rule: some leading run of
whitespace can be split off so that the remainder begins case-insensitively
with `SELECT`, or with `WITH` followed by whitespace. -/
def specReadOnly (s : String) : Bool :=
  (List.range (s.data.length + 1)).any (fun n =>
    (s.data.take n).all pyIsSpace && checkRO (s.data.drop n))

/-- Outcome of one statement executed on a live connection: the result
columns and rows (reads), the backend-reported affected-row count (writes),
and the transaction state after the statement. -/
structure StmtResult (σ : Type) where
  columns : List String
  rows : List (List String)
  rowcount : Nat
  state : σ

/-- A database backend: a statement applied to a transaction state either
yields a `StmtResult` or fails with the backend error message. -/
def Backend (σ : Type) : Type :=
  String → σ → Except String (StmtResult σ)

/-- Connection operations performed by a request handler, recorded in order. -/
inductive ConnOp where
  | beginTxn
  | execStmt (sql : String)
  | commitTxn
  | rollbackTxn
  | closeConn
deriving DecidableEq

/-- JSON payload of a response from either statement endpoint. -/
inductive Payload where
  | result (columns : List String) (rows : List (List String))
      (row_count : Nat) (truncated : Bool) (row_limit : Nat)
  | affected (affected_rows : Nat)
  | err (msg : String)
deriving DecidableEq

/-- A handled request: HTTP status, JSON payload, the committed database
state after the request, and the trace of connection operations performed. -/
structure HttpResult (σ : Type) where
  status : Nat
  payload : Payload
  db : σ
  trace : List ConnOp

/-- Whether a transaction is still open after the traced operations:
`beginTxn` opens one; commit, rollback and close all end it
(closing a SQLAlchemy connection rolls back its open transaction). -/
def txnOpenAfter (ops : List ConnOp) : Bool :=
  ops.foldl
    (fun b op =>
      match op with
      | ConnOp.beginTxn => true
      | ConnOp.execStmt _ => b
      | ConnOp.commitTxn => false
      | ConnOp.rollbackTxn => false
      | ConnOp.closeConn => false)
    false

/-- The statement issued on the read path to request a read-only
transaction; its failure is swallowed (SQLite rejects it). -/
def setTxnReadOnly : String :=
  "SET TRANSACTION READ ONLY"

/-- The transaction state after the attempted `SET TRANSACTION READ ONLY`
whose failure the read path swallows: the statement's resulting state when
it succeeds, the unchanged state when the backend rejects it. -/
def afterSetRO (run : Backend σ) (db : σ) : σ :=
  match run setTxnReadOnly db with
  | .ok r0 => r0.state
  | .error _ => db

/-- The `POST /fenrir/query` handler.  `sqlField` is the `sql` member of the
request JSON when present.  Mirrors the source: strip the field, reject the
empty statement (400), reject a statement the read-only regex does not match
(400), then begin a transaction on the committed state `db`, attempt
`SET TRANSACTION READ ONLY` swallowing its failure, execute the statement,
fetch at most `row_limit` rows plus one probe row for the truncation flag,
and roll back.  Any execution failure closes the connection (rolling the
open transaction back) and reports 422. -/
def query (run : Backend σ) (row_limit : Nat) (db : σ) (sqlField : Option String) :
    HttpResult σ :=
  let sql := pyStrip (sqlField.getD "")
  if sql.isEmpty then
    ⟨400, .err "missing 'sql' field", db, []⟩
  else if !readOnlyMatch sql then
    ⟨400, .err "only SELECT (or WITH ... SELECT) allowed", db, []⟩
  else
    match run sql (afterSetRO run db) with
    | .error e =>
        ⟨422, .err e, db,
          [ConnOp.beginTxn, ConnOp.execStmt setTxnReadOnly, ConnOp.execStmt sql,
           ConnOp.closeConn]⟩
    | .ok r =>
        let rows := r.rows.take row_limit
        let total := rows.length
        let extra := (r.rows.drop row_limit).head?
        let truncated := extra.isSome
        ⟨200, .result r.columns rows total truncated row_limit, db,
          [ConnOp.beginTxn, ConnOp.execStmt setTxnReadOnly, ConnOp.execStmt sql,
           ConnOp.rollbackTxn, ConnOp.closeConn]⟩

/-- Modelled from the spec: the `POST /fenrir/execute` handler is absent
from the source under `src/` (only its tests exist), so it is taken from
the spec's write path: 400 when `sql` is missing/empty or classifies
READ_ONLY, otherwise execute the statement in a normal transaction,
commit on success answering `{affected_rows}` with the backend-reported
count, and on failure do not commit and answer 422. -/
def execute (run : Backend σ) (db : σ) (sqlField : Option String) :
    HttpResult σ :=
  let sql := pyStrip (sqlField.getD "")
  if sql.isEmpty then
    ⟨400, .err "missing 'sql' field", db, []⟩
  else if readOnlyMatch sql then
    ⟨400, .err "only mutating statements allowed", db, []⟩
  else
    match run sql db with
    | .error e =>
        ⟨422, .err e, db, [ConnOp.beginTxn, ConnOp.execStmt sql, ConnOp.closeConn]⟩
    | .ok r =>
        ⟨200, .affected r.rowcount, r.state,
          [ConnOp.beginTxn, ConnOp.execStmt sql, ConnOp.commitTxn, ConnOp.closeConn]⟩

/-- Concrete test statement: the single-row INSERT of the test suite. -/
def insertPratchett : String :=
  "INSERT INTO author (name) VALUES ('Pratchett')"

/-- Concrete test statement: read all author names. -/
def selectNames : String :=
  "SELECT name FROM author"

/-- Concrete test statement: a five-row read used for truncation checks. -/
def selectNums : String :=
  "SELECT id FROM nums"

/-- A toy backend over a list of author names, recognizing the concrete
statements of the test suite; `SET TRANSACTION READ ONLY` fails as it does
on SQLite, and the INSERT reports one affected row. -/
def toyRun : Backend (List String) := fun sql db =>
  if sql == setTxnReadOnly then
    .error "near SET: syntax error"
  else if sql == insertPratchett then
    .ok ⟨[], [], 1, db ++ ["Pratchett"]⟩
  else if sql == selectNames then
    .ok ⟨["name"], db.map (fun n => [n]), 0, db⟩
  else if sql == selectNums then
    .ok ⟨["id"], [["0"], ["1"], ["2"], ["3"], ["4"]], 0, db⟩
  else
    .error "no such statement in the toy model"

/-- Python `str.startswith` on character lists. -/
def listStartsWith (l p : List Char) : Bool :=
  l.take p.length == p

/-- The `_require_auth` decorator's gate: `none` lets the wrapped view run,
`some (status, message)` is the short-circuit error response.  Auth is
skipped when the app is in debug mode; a missing or empty `FENRIR_API_KEY`
answers 401 "not configured"; a header that does not read `Bearer <key>`
answers 401 "unauthorized". -/
def requireAuth (debug : Bool) (apiKey : Option String) (authHeader : Option String) :
    Option (Nat × String) :=
  if debug then none
  else
    let key := apiKey.getD ""
    if key == "" then some (401, "FENRIR_API_KEY not configured")
    else
      let auth := authHeader.getD ""
      if !listStartsWith auth.data "Bearer ".data || !(auth.data.drop 7 == key.data) then
        some (401, "unauthorized")
      else none

/-- The request attributes read by the `secure_app` before-request hook. -/
structure BasicAuthReq where
  path : String
  endpoint : Option String
  headerVal : Option String
  authPresent : Bool
  authPassword : Option String

/-- The `secure_app` before-request hook: `none` lets the request proceed,
`some (status, body)` short-circuits.  Debug mode skips the check; the root
path, the `/fenrir/` and `/static/` (and configured extra) path prefixes and
the `static` endpoint are exempt; a missing or empty `FENRIR_API_KEY`
answers 503; a configured api-key header matching the key, or basic-auth
credentials whose password matches the key, are admitted; everything else
answers 401. -/
def basicAuthCheck (debug : Bool) (skipPaths : List String) (apiKeyHeader : Option String)
    (apiKey : Option String) (req : BasicAuthReq) : Option (Nat × String) :=
  if debug then none
  else
    let skip := ["/fenrir/", "/static/"] ++ skipPaths
    if req.path == "/" || skip.any (fun p => listStartsWith req.path.data p.data) then
      none
    else if req.endpoint == some "static" then
      none
    else
      let key := apiKey.getD ""
      if key == "" then some (503, "Not configured")
      else
        let hv := req.headerVal.getD ""
        if !(apiKeyHeader.getD "" == "") && (!(hv == "") && hv == key) then none
        else if req.authPresent && req.authPassword == some key then none
        else some (401, "Authentication required")

/-- A `/fenrir/*` view behind `_require_auth`: the gate's error response if
it fires, otherwise the view's own response. -/
def fenrirEndpoint (debug : Bool) (apiKey : Option String) (authHeader : Option String)
    (handler : Unit → Nat × String) : Nat × String :=
  match requireAuth debug apiKey authHeader with
  | some resp => resp
  | none => handler ()

/-- Any app view behind the `secure_app` hook: the hook's response if it
fires, otherwise the view's own response. -/
def appRequest (debug : Bool) (skipPaths : List String) (apiKeyHeader : Option String)
    (apiKey : Option String) (req : BasicAuthReq) (handler : Unit → Nat × String) :
    Nat × String :=
  match basicAuthCheck debug skipPaths apiKeyHeader apiKey req with
  | some resp => resp
  | none => handler ()

/-- Code-point comparison of character lists: Python's `<=` on strings. -/
def lexLe : List Char → List Char → Bool
  | [], _ => true
  | _ :: _, [] => false
  | a :: as, b :: bs =>
    if a.toNat < b.toNat then true
    else if b.toNat < a.toNat then false
    else lexLe as bs

/-- Code-point comparison of strings, the order of Python `sorted`. -/
def strLe (a b : String) : Bool :=
  lexLe a.data b.data

/-- One rendered column of `GET /fenrir/schema`. -/
structure ColumnInfo where
  name : String
  type : String
  nullable : Bool
  default : Option String
deriving DecidableEq

/-- One rendered foreign key of `GET /fenrir/schema`. -/
structure FKInfo where
  columns : List String
  referred_table : String
  referred_columns : List String
deriving DecidableEq

/-- One rendered index of `GET /fenrir/schema`. -/
structure IndexInfo where
  name : String
  columns : List String
  unique : Bool
deriving DecidableEq

/-- The SQLAlchemy inspector together with the per-table `COUNT(*)` of the
connection, as the two GET handlers consume them. -/
structure Inspector where
  tableNames : List String
  getColumns : String → List ColumnInfo
  getPk : String → List String
  getFks : String → List FKInfo
  getIndexes : String → List IndexInfo
  rowCount : String → Nat

/-- The per-table body of the `GET /fenrir/schema` response. -/
structure TableSchema where
  columns : List ColumnInfo
  primary_key : List String
  foreign_keys : List FKInfo
  indexes : List IndexInfo
deriving DecidableEq

/-- The table list of `GET /fenrir/`: names sorted, each with its
`COUNT(*)`. -/
def indexTables (insp : Inspector) : List (String × Nat) :=
  (List.insertionSort (fun a b => strLe a b = true) insp.tableNames).map
    (fun n => (n, insp.rowCount n))

/-- The table map of `GET /fenrir/schema`, in its iteration (insertion)
order: names sorted, each with its columns, primary key, foreign keys and
indexes. -/
def schemaTables (insp : Inspector) : List (String × TableSchema) :=
  (List.insertionSort (fun a b => strLe a b = true) insp.tableNames).map
    (fun n => (n, ⟨insp.getColumns n, insp.getPk n, insp.getFks n, insp.getIndexes n⟩))

/-- A concrete two-table inspector, shaped like the test fixture. -/
def demoInspector : Inspector :=
  ⟨["book", "author"],
   fun n => if n == "author" then [⟨"id", "INTEGER", false, none⟩] else [⟨"title", "VARCHAR", false, none⟩],
   fun _ => ["id"],
   fun n => if n == "book" then [⟨["author_id"], "author", ["id"]⟩] else [],
   fun _ => [],
   fun _ => 1⟩

/-- A whitespace character is left unchanged by ASCII lower-casing and is
neither `s` nor `w`. -/
theorem pyIsSpace_lower {c : Char} (h : pyIsSpace c = true) :
    lowerAscii c = c ∧ c ≠ 's' ∧ c ≠ 'w' := by
  simp only [pyIsSpace, Bool.or_eq_true, beq_iff_eq] at h
  rcases h with ((((h | h) | h) | h) | h) | h <;> subst h <;>
    exact ⟨by decide, by decide, by decide⟩

/-- The character list of the literal `SELECT`, lower-cased. -/
theorem select_lower : "SELECT".data.map lowerAscii = ['s', 'e', 'l', 'e', 'c', 't'] := by
  decide

/-- The character list of the literal `WITH`, lower-cased. -/
theorem with_lower : "WITH".data.map lowerAscii = ['w', 'i', 't', 'h'] := by
  decide

/-- A list accepted by the read-only alternation starts with a
non-whitespace character. -/
theorem checkRO_head {c : Char} {t : List Char} (h : checkRO (c :: t) = true) :
    pyIsSpace c = false := by
  cases hc : pyIsSpace c
  · rfl
  · exfalso
    obtain ⟨hlow, hs, hw⟩ := pyIsSpace_lower hc
    simp only [checkRO, Bool.or_eq_true, Bool.and_eq_true] at h
    rcases h with h | ⟨h, _⟩
    · have h6 : "SELECT".data.length = 6 := by decide
      rw [ciStarts, h6, List.take_succ_cons, List.map_cons, select_lower,
        beq_iff_eq] at h
      exact hs (hlow ▸ (List.cons.injEq _ _ _ _ ▸ h).1)
    · have h4 : "WITH".data.length = 4 := by decide
      rw [ciStarts, h4, List.take_succ_cons, List.map_cons, with_lower,
        beq_iff_eq] at h
      exact hw (hlow ▸ (List.cons.injEq _ _ _ _ ▸ h).1)

/-- A list accepted by the read-only alternation has no leading whitespace
to drop. -/
theorem dropWhile_checkRO {l : List Char} (h : checkRO l = true) :
    l.dropWhile pyIsSpace = l := by
  cases l with
  | nil => rfl
  | cons c t => rw [List.dropWhile_cons, checkRO_head h]; simp

/-- The spec-side classification rule (split off some leading whitespace,
then the read-only alternation) agrees with the code's anchored regex
match. -/
theorem specReadOnly_iff (s : String) :
    specReadOnly s = true ↔ readOnlyMatch s = true := by
  constructor
  · intro h
    simp only [specReadOnly, List.any_eq_true, Bool.and_eq_true] at h
    obtain ⟨n, _, hall, hck⟩ := h
    unfold readOnlyMatch
    have hsplit : s.data.dropWhile pyIsSpace
        = (s.data.take n ++ s.data.drop n).dropWhile pyIsSpace := by
      rw [List.take_append_drop]
    rw [hsplit, List.dropWhile_append]
    have hnil : (s.data.take n).dropWhile pyIsSpace = [] :=
      List.dropWhile_eq_nil_iff.mpr (List.all_eq_true.mp hall)
    rw [hnil]
    simpa [dropWhile_checkRO hck] using hck
  · intro h
    unfold readOnlyMatch at h
    have hsplit := List.takeWhile_append_dropWhile pyIsSpace s.data
    have hlen : (s.data.takeWhile pyIsSpace).length ≤ s.data.length := by
      have := congrArg List.length hsplit
      simp only [List.length_append] at this
      omega
    simp only [specReadOnly, List.any_eq_true, Bool.and_eq_true]
    refine ⟨(s.data.takeWhile pyIsSpace).length, List.mem_range.mpr (by omega), ?_, ?_⟩
    · have h1 : s.data.take (s.data.takeWhile pyIsSpace).length
          = s.data.takeWhile pyIsSpace := by
        have hq := List.take_left (s.data.takeWhile pyIsSpace) (s.data.dropWhile pyIsSpace)
        rwa [hsplit] at hq
      rw [h1]
      exact List.all_eq_true.mpr (fun x hx => List.mem_takeWhile_imp hx)
    · have h2 : s.data.drop (s.data.takeWhile pyIsSpace).length
          = s.data.dropWhile pyIsSpace := by
        have hq := List.drop_left (s.data.takeWhile pyIsSpace) (s.data.dropWhile pyIsSpace)
        rwa [hsplit] at hq
      rw [h2]
      exact h

/-- The truncation probe: after taking `N` rows, one more row exists
exactly when the full result has more than `N` rows. -/
theorem probe_isSome (L : List (List String)) (N : Nat) :
    ((L.drop N).head?).isSome = decide (N < L.length) := by
  rcases Nat.lt_or_ge N L.length with h | h
  · have hne : L.drop N ≠ [] := by
      intro hq
      have := List.drop_eq_nil_iff.mp hq
      omega
    simp [List.head?_isSome.mpr hne, h]
  · have hq : L.drop N = [] := List.drop_eq_nil_iff.mpr h
    simp [hq, Nat.not_lt.mpr h]

/-- The code-point order on character lists is total. -/
theorem lexLe_total : ∀ as bs : List Char, lexLe as bs = true ∨ lexLe bs as = true
  | [], _ => Or.inl rfl
  | _ :: _, [] => Or.inr rfl
  | a :: as, b :: bs => by
    by_cases h1 : a.toNat < b.toNat
    · exact Or.inl (by simp [lexLe, h1])
    · by_cases h2 : b.toNat < a.toNat
      · exact Or.inr (by simp [lexLe, h2])
      · rcases lexLe_total as bs with h | h
        · exact Or.inl (by simp [lexLe, h1, h2, h])
        · exact Or.inr (by simp [lexLe, h1, h2, h])

/-- The code-point order on character lists is transitive. -/
theorem lexLe_trans : ∀ as bs cs : List Char,
    lexLe as bs = true → lexLe bs cs = true → lexLe as cs = true
  | [], _, _, _, _ => rfl
  | _ :: _, [], _, h1, _ => by simp [lexLe] at h1
  | _ :: _, _ :: _, [], _, h2 => by simp [lexLe] at h2
  | a :: as, b :: bs, c :: cs, h1, h2 => by
    simp only [lexLe] at h1 h2 ⊢
    by_cases hab : a.toNat < b.toNat <;> by_cases hba : b.toNat < a.toNat <;>
      by_cases hbc : b.toNat < c.toNat <;> by_cases hcb : c.toNat < b.toNat <;>
      simp only [hab, hba, hbc, hcb, if_true, if_false, if_pos, if_neg] at h1 h2 ⊢ <;>
      first
        | rfl
        | omega
        | (simp [show a.toNat < c.toNat by omega])
        | (rw [if_neg (by omega), if_neg (by omega)]
           exact lexLe_trans as bs cs h1 h2)
        | simp at h1
        | simp at h2

/-- Claim C3: every string that, after stripping leading whitespace, begins
case-insensitively with `SELECT` or with `WITH` followed by whitespace
classifies `READ_ONLY`; every other non-empty string classifies `MUTATING`;
classification is deterministic and anchored at the start. -/
theorem classify_prefix_rule :
    (∀ s : String, specReadOnly s = true → classify s = Classification.READ_ONLY) ∧
    (∀ s : String, s ≠ "" → specReadOnly s = false →
      classify s = Classification.MUTATING) ∧
    (∀ s t : String, s = t → classify s = classify t) := by
  refine ⟨?_, ?_, ?_⟩
  · intro s h
    simp [classify, (specReadOnly_iff s).mp h]
  · intro s _ h
    have hro : readOnlyMatch s = false := by
      cases hb : readOnlyMatch s with
      | false => rfl
      | true =>
        rw [(specReadOnly_iff s).mpr hb] at h
        exact absurd h (by simp)
    simp [classify, hro]
  · intro s t h
    rw [h]

/-- Witness for C3 at two concrete statements. -/
theorem classify_prefix_rule_witness :
    classify "  SELECT 1" = Classification.READ_ONLY ∧
    classify "DELETE FROM author" = Classification.MUTATING :=
  ⟨classify_prefix_rule.1 "  SELECT 1" (by decide),
   classify_prefix_rule.2.1 "DELETE FROM author" (by decide) (by decide)⟩

/-- Claim C4: the read path never commits and rolls back on every exit
path: for every request the committed state after `query` equals the state
before, no commit appears in the connection trace, and no transaction is
left open. -/
theorem query_never_commits :
    ∀ (σ : Type) (run : Backend σ) (N : Nat) (db : σ) (sqlField : Option String),
      (query run N db sqlField).db = db ∧
      ConnOp.commitTxn ∉ (query run N db sqlField).trace ∧
      txnOpenAfter (query run N db sqlField).trace = false := by
  intro σ run N db sqlField
  by_cases he : (pyStrip (sqlField.getD "")).isEmpty
  · simp [query, he, txnOpenAfter]
  · by_cases hro : readOnlyMatch (pyStrip (sqlField.getD ""))
    · rcases hrun : run (pyStrip (sqlField.getD "")) (afterSetRO run db) with e | r
      · simp [query, he, hro, hrun, txnOpenAfter]
      · simp [query, he, hro, hrun, txnOpenAfter]
    · simp [query, he, hro, txnOpenAfter]

/-- Claim C7: a missing or empty/whitespace-only `sql` field answers 400 on
both endpoints, leaving the database untouched with no connection
operation performed. -/
theorem missing_sql_no_db_call :
    ∀ (σ : Type) (run : Backend σ) (N : Nat) (db : σ) (sqlField : Option String),
      (pyStrip (sqlField.getD "")).isEmpty = true →
      query run N db sqlField = ⟨400, Payload.err "missing 'sql' field", db, []⟩ ∧
      execute run db sqlField = ⟨400, Payload.err "missing 'sql' field", db, []⟩ := by
  intro σ run N db sqlField h
  exact ⟨by simp [query, h], by simp [execute, h]⟩

/-- Witness for C7 at a whitespace-only statement. -/
theorem missing_sql_no_db_call_witness :
    query toyRun 1000 ([] : List String) (some "   ")
        = ⟨400, Payload.err "missing 'sql' field", [], []⟩ ∧
    execute toyRun ([] : List String) (some "   ")
        = ⟨400, Payload.err "missing 'sql' field", [], []⟩ :=
  missing_sql_no_db_call (List String) toyRun 1000 [] (some "   ") (by decide)

/-- Claim C9: debug mode bypasses both authentication gates entirely, so
the response is independent of the supplied credential and of the
configured key. -/
theorem debug_bypasses_auth :
    ∀ (k k2 hdr hdr2 : Option String) (handler : Unit → Nat × String)
      (skips : List String) (hcfg hcfg2 : Option String) (req req2 : BasicAuthReq),
      requireAuth true k hdr = none ∧
      basicAuthCheck true skips hcfg k req = none ∧
      fenrirEndpoint true k hdr handler = fenrirEndpoint true k2 hdr2 handler ∧
      fenrirEndpoint true k hdr handler = handler () ∧
      appRequest true skips hcfg k req handler
        = appRequest true skips hcfg2 k2 req2 handler ∧
      appRequest true skips hcfg k req handler = handler () := by
  intro k k2 hdr hdr2 handler skips hcfg hcfg2 req req2
  exact ⟨rfl, rfl, rfl, rfl, rfl, rfl⟩

/-- Claim C10: the app-wide basic-auth hook exempts the root path, the
`/fenrir/` and `/static/` prefixes, any configured skip prefix and the
`static` endpoint, regardless of the configured key. -/
theorem skip_paths_bypass_basic_auth :
    ∀ (debug : Bool) (skips : List String) (hcfg : Option String)
      (k : Option String) (req : BasicAuthReq),
      ((req.path == "/"
          || (["/fenrir/", "/static/"] ++ skips).any
               (fun p => listStartsWith req.path.data p.data)) = true
        ∨ (req.endpoint == some "static") = true) →
      basicAuthCheck debug skips hcfg k req = none := by
  intro debug skips hcfg k req h
  cases debug with
  | true => rfl
  | false =>
    unfold basicAuthCheck
    rw [if_neg (by simp)]
    dsimp only
    rcases h with h | h
    · rw [if_pos h]
    · by_cases h1 : (req.path == "/"
          || (["/fenrir/", "/static/"] ++ skips).any
               (fun p => listStartsWith req.path.data p.data)) = true
      · rw [if_pos h1]
      · rw [if_neg h1, if_pos h]

/-- Witness for C10 at a `/fenrir/` path with no key configured. -/
theorem skip_paths_bypass_basic_auth_witness :
    basicAuthCheck false [] none none ⟨"/fenrir/query", none, none, false, none⟩
      = none :=
  skip_paths_bypass_basic_auth false [] none none
    ⟨"/fenrir/query", none, none, false, none⟩ (Or.inl (by decide))

/-- Claim C2: on a successful read with configured limit `N` the handler
answers the first `N` result rows, `row_count` equal to their number (hence
at most `N`), `truncated` exactly when more than `N` rows exist (the probe
row is neither counted nor returned), and echoes `N`; with exactly `N + 1`
result rows this gives `row_count = N`, `truncated = true`, with exactly
`N` rows `row_count = N`, `truncated = false`. -/
theorem query_row_limit_truncation :
    ∀ (σ : Type) (run : Backend σ) (N : Nat) (db : σ) (sqlField : Option String)
      (r : StmtResult σ),
      (pyStrip (sqlField.getD "")).isEmpty = false →
      readOnlyMatch (pyStrip (sqlField.getD "")) = true →
      run (pyStrip (sqlField.getD "")) (afterSetRO run db) = Except.ok r →
      query run N db sqlField =
        ⟨200,
         Payload.result r.columns (r.rows.take N) (r.rows.take N).length
           (decide (N < r.rows.length)) N,
         db,
         [ConnOp.beginTxn, ConnOp.execStmt setTxnReadOnly,
          ConnOp.execStmt (pyStrip (sqlField.getD "")), ConnOp.rollbackTxn,
          ConnOp.closeConn]⟩ ∧
      (r.rows.take N).length ≤ N ∧
      (r.rows.length = N + 1 →
        (r.rows.take N).length = N ∧ decide (N < r.rows.length) = true) ∧
      (r.rows.length = N →
        (r.rows.take N).length = N ∧ decide (N < r.rows.length) = false) := by
  intro σ run N db sqlField r hne hro hrun
  refine ⟨?_, ?_, ?_, ?_⟩
  · rw [query]
    dsimp only
    rw [hne, hro, hrun]
    dsimp only
    rw [probe_isSome]
    simp
  · simp [List.length_take]
  · intro h
    refine ⟨by simp [List.length_take, h], by simp [h]⟩
  · intro h
    refine ⟨by simp [List.length_take, h], by simp [h]⟩

/-- Witness for C2: limit 4 against the five-row toy read. -/
theorem query_row_limit_truncation_witness :
    query toyRun 4 ([] : List String) (some selectNums) =
      ⟨200, Payload.result ["id"] [["0"], ["1"], ["2"], ["3"]] 4 true 4, [],
       [ConnOp.beginTxn, ConnOp.execStmt setTxnReadOnly, ConnOp.execStmt selectNums,
        ConnOp.rollbackTxn, ConnOp.closeConn]⟩ :=
  (query_row_limit_truncation (List String) toyRun 4 [] (some selectNums)
      ⟨["id"], [["0"], ["1"], ["2"], ["3"], ["4"]], 0, []⟩ rfl rfl rfl).1

/-- Claim C1: on `POST /fenrir/execute` a mutating statement that succeeds
answers 200 with `affected_rows` equal to the backend-reported count and
commits the new state; a missing/empty or read-only-classified statement
answers 400; a failing statement answers 422 without committing; concretely
the single-row INSERT reports one affected row and the row is visible to a
subsequent read of the committed state. -/
theorem execute_endpoint_contract :
    (∀ (σ : Type) (run : Backend σ) (db : σ) (sqlField : Option String)
        (r : StmtResult σ),
        (pyStrip (sqlField.getD "")).isEmpty = false →
        readOnlyMatch (pyStrip (sqlField.getD "")) = false →
        run (pyStrip (sqlField.getD "")) db = Except.ok r →
        execute run db sqlField =
          ⟨200, Payload.affected r.rowcount, r.state,
           [ConnOp.beginTxn, ConnOp.execStmt (pyStrip (sqlField.getD "")),
            ConnOp.commitTxn, ConnOp.closeConn]⟩) ∧
    (∀ (σ : Type) (run : Backend σ) (db : σ) (sqlField : Option String),
        (pyStrip (sqlField.getD "")).isEmpty = true →
        (execute run db sqlField).status = 400) ∧
    (∀ (σ : Type) (run : Backend σ) (db : σ) (sqlField : Option String),
        readOnlyMatch (pyStrip (sqlField.getD "")) = true →
        (execute run db sqlField).status = 400) ∧
    (∀ (σ : Type) (run : Backend σ) (db : σ) (sqlField : Option String) (e : String),
        (pyStrip (sqlField.getD "")).isEmpty = false →
        readOnlyMatch (pyStrip (sqlField.getD "")) = false →
        run (pyStrip (sqlField.getD "")) db = Except.error e →
        execute run db sqlField =
          ⟨422, Payload.err e, db,
           [ConnOp.beginTxn, ConnOp.execStmt (pyStrip (sqlField.getD "")),
            ConnOp.closeConn]⟩) ∧
    (execute toyRun ["Tolkien"] (some insertPratchett)).status = 200 ∧
    (execute toyRun ["Tolkien"] (some insertPratchett)).payload = Payload.affected 1 ∧
    (query toyRun 1000 (execute toyRun ["Tolkien"] (some insertPratchett)).db
        (some selectNames)).payload
      = Payload.result ["name"] [["Tolkien"], ["Pratchett"]] 2 false 1000 := by
  refine ⟨?_, ?_, ?_, ?_, rfl, rfl, rfl⟩
  · intro σ run db sqlField r hne hro hrun
    rw [execute, hne, hro, hrun]
    simp
  · intro σ run db sqlField h
    simp [execute, h]
  · intro σ run db sqlField h
    by_cases he : (pyStrip (sqlField.getD "")).isEmpty
    · simp [execute, he]
    · simp [execute, he, h]
  · intro σ run db sqlField e hne hro hrun
    rw [execute, hne, hro, hrun]
    simp

/-- Witness for C1: the toy single-row INSERT commits and reports one
affected row. -/
theorem execute_endpoint_contract_witness :
    execute toyRun ["Tolkien"] (some insertPratchett) =
      ⟨200, Payload.affected 1, ["Tolkien", "Pratchett"],
       [ConnOp.beginTxn, ConnOp.execStmt insertPratchett, ConnOp.commitTxn,
        ConnOp.closeConn]⟩ :=
  execute_endpoint_contract.1 (List String) toyRun ["Tolkien"] (some insertPratchett)
    ⟨[], [], 1, ["Tolkien", "Pratchett"]⟩ rfl rfl rfl

/-- Claim C5: a read-only-classified statement posted to the execute
endpoint answers 400, and a mutating-classified statement posted to the
query endpoint answers 400. -/
theorem cross_classification_rejected :
    (∀ (σ : Type) (run : Backend σ) (db : σ) (sqlField : Option String),
        readOnlyMatch (pyStrip (sqlField.getD "")) = true →
        (execute run db sqlField).status = 400) ∧
    (∀ (σ : Type) (run : Backend σ) (N : Nat) (db : σ) (sqlField : Option String),
        readOnlyMatch (pyStrip (sqlField.getD "")) = false →
        (query run N db sqlField).status = 400) := by
  constructor
  · intro σ run db sqlField h
    by_cases he : (pyStrip (sqlField.getD "")).isEmpty
    · simp [execute, he]
    · simp [execute, he, h]
  · intro σ run N db sqlField h
    by_cases he : (pyStrip (sqlField.getD "")).isEmpty
    · simp [query, he]
    · simp [query, he, h]

/-- Witness for C5: a SELECT to execute and an INSERT to query, both 400. -/
theorem cross_classification_rejected_witness :
    (execute toyRun ([] : List String) (some selectNames)).status = 400 ∧
    (query toyRun 1000 ([] : List String) (some insertPratchett)).status = 400 :=
  ⟨cross_classification_rejected.1 (List String) toyRun [] (some selectNames) rfl,
   cross_classification_rejected.2 (List String) toyRun 1000 [] (some insertPratchett)
     rfl⟩

/-- Claim C6 (counterexample): on the bearer-guarded `/fenrir/*` endpoints
the missing-secret outcome and the wrong-credential outcome both carry the
same HTTP status 401, so the two outcomes do not carry different
statuses. -/
theorem bearer_gate_same_status :
    requireAuth false none (some "Bearer wrong")
        = some (401, "FENRIR_API_KEY not configured") ∧
    requireAuth false (some "secret") (some "Bearer wrong")
        = some (401, "unauthorized") ∧
    (requireAuth false none (some "Bearer wrong")).map Prod.fst
      = (requireAuth false (some "secret") (some "Bearer wrong")).map Prod.fst :=
  ⟨rfl, rfl, rfl⟩

/-- Claim C6 (amended): at both gates the missing-secret outcome is
distinct from the wrong-credential outcome and both are non-2xx; the
app-wide basic-auth gate distinguishes them by status (503 versus 401),
while the bearer gate answers 401 in both cases, distinguishing them only
by error message. -/
theorem auth_outcomes_distinct :
    ∀ (k : String) (hdr : Option String) (skips : List String) (req : BasicAuthReq),
      (k == "") = false →
      (!listStartsWith (hdr.getD "").data "Bearer ".data
         || !((hdr.getD "").data.drop 7 == k.data)) = true →
      (req.path == "/"
         || (["/fenrir/", "/static/"] ++ skips).any
              (fun p => listStartsWith req.path.data p.data)) = false →
      (req.endpoint == some "static") = false →
      (req.authPresent && req.authPassword == some k) = false →
      requireAuth false none hdr = some (401, "FENRIR_API_KEY not configured") ∧
      requireAuth false (some k) hdr = some (401, "unauthorized") ∧
      basicAuthCheck false skips none none req = some (503, "Not configured") ∧
      basicAuthCheck false skips none (some k) req
        = some (401, "Authentication required") ∧
      ((503 : Nat) ≠ 401 ∧ ¬ (200 ≤ 503 ∧ 503 < 300) ∧ ¬ (200 ≤ 401 ∧ 401 < 300)) ∧
      ("FENRIR_API_KEY not configured" : String) ≠ "unauthorized" := by
  intro k hdr skips req hk hhdr hpath hep hpw
  refine ⟨rfl, ?_, ?_, ?_, by omega, by decide⟩
  · unfold requireAuth
    rw [if_neg (by simp)]
    simp only [Option.getD_some]
    rw [hk]
    rw [if_neg (by simp)]
    rw [if_pos hhdr]
  · unfold basicAuthCheck
    rw [if_neg (by simp)]
    dsimp only
    rw [hpath]
    rw [if_neg (by simp)]
    rw [if_neg (by simp [hep])]
    rfl
  · unfold basicAuthCheck
    rw [if_neg (by simp)]
    dsimp only
    rw [hpath]
    rw [if_neg (by simp)]
    rw [if_neg (by simp [hep])]
    simp only [Option.getD_some]
    rw [hk]
    rw [if_neg (by simp)]
    rw [if_neg (by simp)]
    rw [if_neg (by simp [hpw])]

/-- Witness for the amended C6 at concrete requests. -/
theorem auth_outcomes_distinct_witness :
    requireAuth false none (some "Bearer nope")
        = some (401, "FENRIR_API_KEY not configured") ∧
    requireAuth false (some "secret") (some "Bearer nope")
        = some (401, "unauthorized") ∧
    basicAuthCheck false [] none none ⟨"/admin", none, none, false, none⟩
        = some (503, "Not configured") ∧
    basicAuthCheck false [] none (some "secret") ⟨"/admin", none, none, false, none⟩
        = some (401, "Authentication required") ∧
    ((503 : Nat) ≠ 401 ∧ ¬ (200 ≤ 503 ∧ 503 < 300) ∧ ¬ (200 ≤ 401 ∧ 401 < 300)) ∧
    ("FENRIR_API_KEY not configured" : String) ≠ "unauthorized" :=
  auth_outcomes_distinct "secret" (some "Bearer nope") []
    ⟨"/admin", none, none, false, none⟩ (by decide) (by decide) (by decide) (by decide)
    (by decide)

/-- Claim C8: both GET handlers enumerate tables sorted lexicographically
by name (the sorted list is a permutation of the inspector's enumeration),
the two handlers agree on the table list, and against an unchanged schema
two calls return identical content. -/
theorem schema_sorted_deterministic :
    ∀ insp : Inspector,
      List.Pairwise (fun a b => strLe a.1 b.1 = true) (schemaTables insp) ∧
      List.Pairwise (fun a b => strLe a.1 b.1 = true) (indexTables insp) ∧
      (indexTables insp).map Prod.fst = (schemaTables insp).map Prod.fst ∧
      List.Perm ((schemaTables insp).map Prod.fst) insp.tableNames ∧
      (∀ insp2, insp2 = insp →
        schemaTables insp2 = schemaTables insp ∧
        indexTables insp2 = indexTables insp) := by
  intro insp
  have hs : List.Sorted (fun a b : String => strLe a b = true)
      (List.insertionSort (fun a b => strLe a b = true) insp.tableNames) := by
    haveI : IsTotal String (fun a b => strLe a b = true) :=
      ⟨fun a b => lexLe_total a.data b.data⟩
    haveI : IsTrans String (fun a b => strLe a b = true) :=
      ⟨fun a b c => lexLe_trans a.data b.data c.data⟩
    exact List.sorted_insertionSort _ _
  have hmap : ∀ {β : Type} (f : String → β),
      List.Pairwise (fun a b : String × β => strLe a.1 b.1 = true)
        ((List.insertionSort (fun a b => strLe a b = true) insp.tableNames).map
          (fun n => (n, f n))) := by
    intro β f
    exact List.pairwise_map.mpr hs
  have hfst : ∀ {β : Type} (f : String → β) (l : List String),
      (l.map (fun n => (n, f n))).map Prod.fst = l := by
    intro β f l
    induction l with
    | nil => rfl
    | cons a t ih => simp [ih]
  refine ⟨hmap _, hmap _, ?_, ?_, ?_⟩
  · rw [indexTables, schemaTables, hfst, hfst]
  · rw [schemaTables, hfst]
    exact List.perm_insertionSort _ _
  · intro insp2 h
    rw [h]
    exact ⟨rfl, rfl⟩

/-- Witness for C8 at the two-table demo inspector. -/
theorem schema_sorted_deterministic_witness :
    schemaTables demoInspector = schemaTables demoInspector ∧
    indexTables demoInspector = indexTables demoInspector :=
  (schema_sorted_deterministic demoInspector).2.2.2.2 demoInspector rfl

end Fenrir
